import Mathlib

/-!
Verification of the Orchestrator AI Agent Platform.

The repository contains one executable source file, the React chat widget
`src/frontend/ai-agent-frontend/src/App.jsx`, plus the design documents for
the agent orchestration core (spec sections 2-5 and `todo.md`), whose code is
planned but not present in the repository.  This file embeds both sides:

* `Orchestrator`: the orchestration loop, step executor, retry policy,
  halting controller and guardrail gate, modelled from the specification
  because the corresponding `src/orchestrator` code does not exist yet.
* `ChatWidget`: a direct embedding of the state and handlers of `App.jsx`.
-/

/-- One role/content chat message, as carried both in the `POST /chat` request
body and in the orchestration history (spec section 6). -/
structure ChatMsg where
  role : String
  content : String
deriving DecidableEq

namespace Orchestrator

/-- Modelled from the spec: the five step action types of section 3
("`action_type` ∈ \x7bplan, retrieve, act, verify, respond\x7d"); the
orchestrator source that would declare them is not in the repository. -/
inductive ActionType
  | plan
  | retrieve
  | act
  | verify
  | respond
deriving DecidableEq

/-- Modelled from the spec: per-Step statuses of section 3. -/
inductive StepStatus
  | pending
  | running
  | completed
  | failed
  | skipped
deriving DecidableEq

/-- Modelled from the spec: terminal Session statuses of section 3. -/
inductive SessionStatus
  | completed
  | halted
  | failed
deriving DecidableEq

/-- Modelled from the spec: the error kinds of section 7 that annotate a
failed Step (`planning_failed` and `non_progress` halt the whole Session and
appear only as halt reasons). -/
inductive ErrorKind
  | schema_invalid
  | guardrail_denied
  | collaborator_timeout
  | transient_io
deriving DecidableEq

/-- Modelled from the spec: `GuardrailVerdict` of section 3: `allow`,
`deny(reason)`, or `modify(replacement_output)`.  Structured payloads are
modelled as opaque strings throughout. -/
inductive GuardrailVerdict
  | allow
  | deny (reason : String)
  | modify (replacement : String)
deriving DecidableEq

/-- Modelled from the spec: the `Step` record of section 3.  `input` and
`output_data` are the validated structured payloads, modelled as opaque
strings; `attempt_count` starts at 0 and is incremented on each retry. -/
structure Step where
  index : Nat
  action_type : ActionType
  status : StepStatus
  description : String
  input : String
  output_data : Option String
  attempt_count : Nat
  error : Option ErrorKind
deriving DecidableEq

/-- Modelled from the spec: a `Plan` (section 3) is the Planner's proposal for
the next step, or the terminal `done` marker. -/
inductive Plan
  | next (action : ActionType) (description : String) (input : String)
  | done

/-- Modelled from the spec: the read-only configuration of section 9 — the
step ceiling (default 10) and the retry ceiling (default 2 additional
attempts), injected into the loop rather than read from globals. -/
structure OrchestratorConfig where
  stepCeiling : Nat
  retryCeiling : Nat

/-- Modelled from the spec: the collaborator contracts of section 6 plus the
schema validator of section 4.3, supplied by composition.  `planner` returns
`none` when it cannot produce a well-formed Plan (section 4.1 failure case);
`handler` is the dispatch target for one attempt of one step, indexed by the
attempt number so that deterministic test stubs (e.g. "times out twice then
succeeds") are expressible; `guardrail` is `GuardrailPolicy.Evaluate`. -/
structure Collaborators where
  planner : List ChatMsg → List Step → Option Plan
  handler : ActionType → String → Nat → Except ErrorKind String
  validateInput : ActionType → String → Bool
  validateOutput : ActionType → String → Bool
  guardrail : String → GuardrailVerdict

/-- Modelled from the spec: retry policy of section 4.4 — only
`collaborator_timeout` and `transient_io` are retryable kinds. -/
def retryable (k : ErrorKind) : Bool :=
  match k with
  | ErrorKind.collaborator_timeout => true
  | ErrorKind.transient_io => true
  | _ => false

/-- Modelled from the spec: `ShouldRetry` of section 4.4 — retry while the
kind is retryable and `attempt_count` is below the configured ceiling. -/
def shouldRetry (cfg : OrchestratorConfig) (k : ErrorKind) (attempts : Nat) : Bool :=
  retryable k && decide (attempts < cfg.retryCeiling)

/-- Modelled from the spec: one attempt of the Step Executor (section 4.2):
validate the input, dispatch to the handler, validate the output, and route
`act`/`respond` outputs through the Guardrail Gate (section 4.6): `allow`
keeps the output, `modify` substitutes the replacement, `deny` fails the
attempt with `guardrail_denied`. -/
def runAttempt (c : Collaborators) (a : ActionType) (inp : String) (attempt : Nat) :
    Except ErrorKind String :=
  if c.validateInput a inp = false then Except.error ErrorKind.schema_invalid
  else
    match c.handler a inp attempt with
    | Except.error k => Except.error k
    | Except.ok out =>
      if c.validateOutput a out = false then Except.error ErrorKind.schema_invalid
      else if a = ActionType.act ∨ a = ActionType.respond then
        match c.guardrail out with
        | GuardrailVerdict.allow => Except.ok out
        | GuardrailVerdict.modify r => Except.ok r
        | GuardrailVerdict.deny _ => Except.error ErrorKind.guardrail_denied
      else Except.ok out

/-- Modelled from the spec: outcome of executing one Step through its retry
budget — final status (`completed` or `failed`, section 4.2), output payload,
final `attempt_count` and error, ready to be written into the Step record. -/
structure AttemptResult where
  status : StepStatus
  output_data : Option String
  attempt_count : Nat
  error : Option ErrorKind
deriving DecidableEq

/-- Modelled from the spec: the retry loop of section 4.4 around the Step
Executor: each retry increments `attempt_count` and re-invokes the Executor
with the same input.  `fuel` is the remaining retry budget; it starts at the
retry ceiling while `attempt` starts at 0, so the two are exhausted together
and a failure with no fuel left is final. -/
def execGo (cfg : OrchestratorConfig) (c : Collaborators) (a : ActionType) (inp : String) :
    Nat → Nat → AttemptResult
  | 0, attempt =>
    match runAttempt c a inp attempt with
    | Except.ok out => ⟨StepStatus.completed, some out, attempt, none⟩
    | Except.error k => ⟨StepStatus.failed, none, attempt, some k⟩
  | Nat.succ f, attempt =>
    match runAttempt c a inp attempt with
    | Except.ok out => ⟨StepStatus.completed, some out, attempt, none⟩
    | Except.error k =>
      if shouldRetry cfg k attempt then execGo cfg c a inp f (attempt + 1)
      else ⟨StepStatus.failed, none, attempt, some k⟩

/-- Modelled from the spec: `Execute(step) → step'` (section 4.2) including
the retry policy: builds the final Step record at sequence index `idx` from
the attempt loop started with the full retry budget and `attempt_count` 0. -/
def executeStep (cfg : OrchestratorConfig) (c : Collaborators) (idx : Nat)
    (a : ActionType) (desc inp : String) : Step :=
  let r := execGo cfg c a inp cfg.retryCeiling 0
  ⟨idx, a, r.status, desc, inp, r.output_data, r.attempt_count, r.error⟩

/-- Modelled from the spec: the result of `Run(session_input)` (section 4.1):
terminal status, nullable halt reason, final response, the executed Step
trace, and an observation flag recording whether the Planner signalled Done
during the run. -/
structure RunResult where
  status : SessionStatus
  halt_reason : Option String
  response : Option String
  steps : List Step
  doneSignalled : Bool
deriving DecidableEq

/-- Modelled from the spec: whether the last executed Step is a successful
`respond` (section 4.1: on Done, "require the last Step to have been a
successful `respond`"). -/
def lastIsSuccessfulRespond (trace : List Step) : Bool :=
  match trace.getLast? with
  | some s => decide (s.action_type = ActionType.respond ∧ s.status = StepStatus.completed)
  | none => false

/-- Modelled from the spec: handling of the Planner's Done signal
(sections 4.1 and 8): `completed` exactly when the last Step is a successful
`respond`, with its output as the final response; otherwise `failed`. -/
def finishDone (trace : List Step) : RunResult :=
  if lastIsSuccessfulRespond trace then
    ⟨SessionStatus.completed, none, (trace.getLast?).bind (fun s => s.output_data), trace, true⟩
  else
    ⟨SessionStatus.failed, some "done_without_respond", none, trace, true⟩

/-- Modelled from the spec: the non-progress guard of section 4.5 — the
Planner proposes a Step whose `action_type`/`input` is identical to the
immediately preceding failed Step. -/
def nonProgressGuard (trace : List Step) (a : ActionType) (inp : String) : Bool :=
  match trace.getLast? with
  | some s => decide (s.status = StepStatus.failed ∧ s.action_type = a ∧ s.input = inp)
  | none => false

/-- Modelled from the spec: the halt reason naming a failed Step's error kind
(section 7 error kinds; retryable kinds that exhausted the budget are reported
as `retry_exhausted`). -/
def reasonOf (k : ErrorKind) : String :=
  match k with
  | ErrorKind.schema_invalid => "schema_invalid"
  | ErrorKind.guardrail_denied => "guardrail_denied"
  | ErrorKind.collaborator_timeout => "retry_exhausted"
  | ErrorKind.transient_io => "retry_exhausted"

/-- Modelled from the spec: the per-step part of `ShouldHalt` (section 4.5):
a Step that exhausted its retry budget, or failed with a non-retryable kind
(`schema_invalid`, `guardrail_denied`, per section 4.4 immediate halt
candidates), halts the Session. -/
def haltingController (s : Step) : Option String :=
  if s.status = StepStatus.failed then
    some (match s.error with
          | some k => reasonOf k
          | none => "retry_exhausted")
  else none

/-- Modelled from the spec: the Orchestration Loop iteration of section 4.1
with the step-count ceiling of section 4.5.  The Halting Controller is
consulted at every iteration boundary, so the ceiling check (`fuel`, which
starts at the configured step ceiling and counts the steps still allowed)
also guards the next iteration: with an adversarial Planner the loop halts
with `step_ceiling` after exactly `stepCeiling` Steps.  Planner failure
yields status `failed` with `halt_reason = planning_failed`. -/
def loop (cfg : OrchestratorConfig) (c : Collaborators) (history : List ChatMsg) :
    Nat → List Step → RunResult
  | 0, trace => ⟨SessionStatus.halted, some "step_ceiling", none, trace, false⟩
  | Nat.succ f, trace =>
    match c.planner history trace with
    | none => ⟨SessionStatus.failed, some "planning_failed", none, trace, false⟩
    | some Plan.done => finishDone trace
    | some (Plan.next a desc inp) =>
      if nonProgressGuard trace a inp then
        ⟨SessionStatus.halted, some "non_progress", none, trace, false⟩
      else
        match haltingController (executeStep cfg c trace.length a desc inp) with
        | some r =>
          ⟨SessionStatus.halted, some r, none,
           trace ++ [executeStep cfg c trace.length a desc inp], false⟩
        | none => loop cfg c history f (trace ++ [executeStep cfg c trace.length a desc inp])

/-- Modelled from the spec: `Run(session_input) → (final_response, step_trace,
status)` (section 4.1) — the top-level driver over an empty initial trace. -/
def run (cfg : OrchestratorConfig) (c : Collaborators) (history : List ChatMsg) : RunResult :=
  loop cfg c history cfg.stepCeiling []

end Orchestrator

namespace ChatWidget

/-- One step record of a `/chat` response body, as rendered by `App.jsx`:
`action_type`, `status`, `description`, optional `output_data` (an opaque
JSON object, modelled as a string). -/
structure RStep where
  action_type : String
  status : String
  description : String
  output_data : Option String
deriving DecidableEq

/-- The parsed `/chat` response body read by `sendMessage` (`data.response`,
`data.steps`, `data.tokens_used`, `data.status`); `steps`, `tokens_used` and
`status` may be absent. -/
structure ChatResponse where
  response : String
  steps : Option (List RStep)
  tokens_used : Option Nat
  status : Option String
deriving DecidableEq

/-- One message object of the widget's `messages` state: `id`, `role`,
`content`, `steps`, plus the optional `tokensUsed`/`status` copied from a
response and the `isError` flag of error bubbles.  The JavaScript `timestamp`
(a `Date`) is not modelled. -/
structure Message where
  id : Nat
  role : String
  content : String
  steps : List RStep
  tokensUsed : Option Nat
  status : Option String
  isError : Bool
deriving DecidableEq

/-- The request body sent to `POST /chat`: an object with the single field
`messages`, each element carrying exactly `role` and `content`. -/
structure RequestBody where
  messages : List ChatMsg
deriving DecidableEq

/-- The widget's mutable state: the `messages`, `inputMessage` and
`isLoading` `useState` hooks of `App`. -/
structure WidgetState where
  messages : List Message
  inputMessage : String
  isLoading : Bool
deriving DecidableEq

/-- The initial widget state: the hard-coded assistant greeting with id 1 and
empty `steps`, an empty input, not loading. -/
def initialState : WidgetState :=
  ⟨[⟨1, "assistant",
     "Hello! I\x27m your AI agent. I can help you with various tasks including web search, document analysis, and more. How can I assist you today?",
     [], none, none, false⟩], "", false⟩

/-- Outcome of the `fetch` to `/chat` as observed by `sendMessage`: a parsed
body on HTTP success, `httpNotOk` when `!response.ok` (the thrown
`Error("Failed to get response")`), or a rejected fetch carrying the error
message. -/
inductive FetchOutcome
  | success (data : ChatResponse)
  | httpNotOk
  | networkFailure (msg : String)
deriving DecidableEq

/-- The user message object built by `sendMessage` from the current input
(`id: Date.now()` modelled by the injected `now`). -/
def userMessageOf (content : String) (now : Nat) : Message :=
  ⟨now, "user", content, [], none, none, false⟩

/-- Projection of a stored message to a request-body element: the
`map(msg => (\x7b role: msg.role, content: msg.content \x7d))` in
`sendMessage`. -/
def toBodyMsg (m : Message) : ChatMsg :=
  ⟨m.role, m.content⟩

/-- The error-bubble text `Sorry, I encountered an error: $\x7bs\x7d`. -/
def errorContent (s : String) : String :=
  "Sorry, I encountered an error: " ++ s

/-- The assistant message appended for a fetch outcome (`id: Date.now() + 1`):
on success the body's `response`, `steps || []`, `tokens_used` and `status`;
on failure an `isError` bubble with empty steps and the formatted error
message. -/
def replyMessage (now : Nat) (outcome : FetchOutcome) : Message :=
  match outcome with
  | FetchOutcome.success data =>
    ⟨now + 1, "assistant", data.response, data.steps.getD [], data.tokens_used, data.status, false⟩
  | FetchOutcome.httpNotOk =>
    ⟨now + 1, "assistant", errorContent "Failed to get response", [], none, none, true⟩
  | FetchOutcome.networkFailure msg =>
    ⟨now + 1, "assistant", errorContent msg, [], none, none, true⟩

/-- The JavaScript `String.prototype.trim()` applied to the input: drop
whitespace from both ends of the character sequence. -/
def jsTrim (s : String) : String :=
  ⟨((s.data.dropWhile Char.isWhitespace).reverse.dropWhile Char.isWhitespace).reverse⟩

/-- The guarded first half of `sendMessage`, up to the `fetch` call: `none`
when `!inputMessage.trim() || isLoading` returns early; otherwise the state
while the request is in flight (user message appended, input cleared,
`isLoading` set) and the request body built from `[...messages, userMessage]`
in display order. -/
def sendMessageStart (s : WidgetState) (now : Nat) : Option (WidgetState × RequestBody) :=
  if jsTrim s.inputMessage = "" ∨ s.isLoading = true then none
  else
    let sent := s.messages ++ [userMessageOf s.inputMessage now]
    some (⟨sent, "", true⟩, ⟨sent.map toBodyMsg⟩)

/-- The second half of `sendMessage`: append the assistant (or error) message
for the outcome and, in the `finally` block, clear `isLoading`. -/
def sendMessageFinish (s : WidgetState) (now : Nat) (outcome : FetchOutcome) : WidgetState :=
  ⟨s.messages ++ [replyMessage now outcome], s.inputMessage, false⟩

/-- The whole `sendMessage` handler for a given fetch outcome: the final
state and the request body that was posted (`none` when the guard returned
early and no request was made). -/
def sendMessage (s : WidgetState) (now : Nat) (outcome : FetchOutcome) :
    WidgetState × Option RequestBody :=
  match sendMessageStart s now with
  | none => (s, none)
  | some (s1, body) => (sendMessageFinish s1 now outcome, some body)

/-- The icons of `getStepIcon` (lucide components in `App.jsx`). -/
inductive StepIcon
  | settings
  | search
  | bot
  | fileText
  | send
deriving DecidableEq

/-- The `getStepIcon` switch: a per-action-type icon for the five known
action types, `Bot` as the default. -/
def getStepIcon (actionType : String) : StepIcon :=
  if actionType = "plan" then StepIcon.settings
  else if actionType = "retrieve" then StepIcon.search
  else if actionType = "act" then StepIcon.bot
  else if actionType = "verify" then StepIcon.fileText
  else if actionType = "respond" then StepIcon.send
  else StepIcon.bot

/-- The `getStepColor` switch: badge classes for `completed`/`running`/
`failed`, gray as the default. -/
def getStepColor (status : String) : String :=
  if status = "completed" then "bg-green-100 text-green-800 border-green-200"
  else if status = "running" then "bg-blue-100 text-blue-800 border-blue-200"
  else if status = "failed" then "bg-red-100 text-red-800 border-red-200"
  else "bg-gray-100 text-gray-800 border-gray-200"

/-- What the step-details panel renders for one step: its icon, the
`action_type` label, the status badge (color and text), the description, and
the expandable `output_data` details when present. -/
structure StepView where
  icon : StepIcon
  label : String
  badgeColor : String
  badgeText : String
  description : String
  details : Option String
deriving DecidableEq

/-- Rendering of one step row in the details panel. -/
def renderStep (st : RStep) : StepView :=
  ⟨getStepIcon st.action_type, st.action_type, getStepColor st.status,
   st.status, st.description, st.output_data⟩

/-- Whether the `Show Steps` toggle button is rendered for a message:
`message.steps && message.steps.length > 0`. -/
def stepsToggleShown (m : Message) : Bool :=
  decide (0 < m.steps.length)

/-- The step-details panel for a message: rendered rows when the message is
toggled open (`showSteps[message.id]`) and has steps, nothing otherwise. -/
def stepPanel (shown : Bool) (m : Message) : List StepView :=
  if shown = true ∧ 0 < m.steps.length then m.steps.map renderStep else []

/-- Roles allowed by the `/chat` request schema (spec section 6). -/
def RoleOk (r : String) : Prop :=
  r = "user" ∨ r = "assistant" ∨ r = "system"

instance (r : String) : Decidable (RoleOk r) := by
  unfold RoleOk
  infer_instance

/-- All messages stored in a widget state have roles from the request
enum. -/
def StateRolesOk (s : WidgetState) : Prop :=
  ∀ m ∈ s.messages, RoleOk m.role

instance (s : WidgetState) : Decidable (StateRolesOk s) := by
  unfold StateRolesOk
  infer_instance

end ChatWidget

namespace Orchestrator

/-- Property of a Step that records acceptance by the Guardrail Gate: some
raw handler output was checked, and the Step's `output_data` is that output
(verdict `allow`) or the verdict's replacement (verdict `modify`). -/
def acceptedByGuardrail (c : Collaborators) (s : Step) : Prop :=
  ∃ raw, (c.guardrail raw = GuardrailVerdict.allow ∧ s.output_data = some raw)
    ∨ ∃ rep, c.guardrail raw = GuardrailVerdict.modify rep ∧ s.output_data = some rep

theorem execGo_attempt_le (cfg : OrchestratorConfig) (c : Collaborators)
    (a : ActionType) (inp : String) :
    ∀ fuel attempt, (execGo cfg c a inp fuel attempt).attempt_count ≤ attempt + fuel := by
  intro fuel
  induction fuel with
  | zero =>
    intro attempt
    simp only [execGo]
    split
    · exact Nat.le_refl _
    · exact Nat.le_refl _
  | succ f ih =>
    intro attempt
    simp only [execGo]
    split
    · exact Nat.le_add_right _ _
    · split
      · exact le_trans (ih (attempt + 1)) (by omega)
      · exact Nat.le_add_right _ _

theorem executeStep_attempt_le (cfg : OrchestratorConfig) (c : Collaborators)
    (idx : Nat) (a : ActionType) (desc inp : String) :
    (executeStep cfg c idx a desc inp).attempt_count ≤ cfg.retryCeiling := by
  have h := execGo_attempt_le cfg c a inp cfg.retryCeiling 0
  simpa [executeStep] using h

theorem runAttempt_ok_accepted (c : Collaborators) (a : ActionType) (inp : String)
    (attempt : Nat) (v : String)
    (ha : a = ActionType.act ∨ a = ActionType.respond)
    (h : runAttempt c a inp attempt = Except.ok v) :
    ∃ raw, (c.guardrail raw = GuardrailVerdict.allow ∧ v = raw)
      ∨ ∃ rep, c.guardrail raw = GuardrailVerdict.modify rep ∧ v = rep := by
  unfold runAttempt at h
  split at h
  · exact absurd h (by simp)
  · split at h
    · exact absurd h (by simp)
    · rename_i out heq
      split at h
      · exact absurd h (by simp)
      · split at h
        · rename_i hg
          exact ⟨out, Or.inl ⟨hg, (Except.ok.inj h).symm⟩⟩
        · rename_i r hg
          exact ⟨out, Or.inr ⟨r, hg, (Except.ok.inj h).symm⟩⟩
        · exact absurd h (by simp)

theorem execGo_completed (cfg : OrchestratorConfig) (c : Collaborators)
    (a : ActionType) (inp : String) :
    ∀ fuel attempt r, execGo cfg c a inp fuel attempt = r →
      r.status = StepStatus.completed →
      ∃ att out, runAttempt c a inp att = Except.ok out ∧ r.output_data = some out := by
  intro fuel
  induction fuel with
  | zero =>
    intro attempt r hr h
    simp only [execGo] at hr
    split at hr
    · rename_i out hout
      subst hr
      exact ⟨attempt, out, hout, rfl⟩
    · subst hr
      exact absurd h (by simp)
  | succ f ih =>
    intro attempt r hr h
    simp only [execGo] at hr
    split at hr
    · rename_i out hout
      subst hr
      exact ⟨attempt, out, hout, rfl⟩
    · split at hr
      · exact ih (attempt + 1) r hr h
      · subst hr
        exact absurd h (by simp)

theorem executeStep_accepted (cfg : OrchestratorConfig) (c : Collaborators)
    (idx : Nat) (a : ActionType) (desc inp : String)
    (ha : a = ActionType.act ∨ a = ActionType.respond)
    (h : (executeStep cfg c idx a desc inp).status = StepStatus.completed) :
    acceptedByGuardrail c (executeStep cfg c idx a desc inp) := by
  have hs : (execGo cfg c a inp cfg.retryCeiling 0).status = StepStatus.completed := by
    simpa [executeStep] using h
  obtain ⟨att, out, hok, hout⟩ :=
    execGo_completed cfg c a inp cfg.retryCeiling 0 _ rfl hs
  obtain ⟨raw, hraw⟩ := runAttempt_ok_accepted c a inp att out ha hok
  refine ⟨raw, ?_⟩
  have hod : (executeStep cfg c idx a desc inp).output_data = some out := by
    simpa [executeStep] using hout
  rcases hraw with ⟨hall, heq⟩ | ⟨rep, hmod, heq⟩
  · exact Or.inl ⟨hall, heq ▸ hod⟩
  · exact Or.inr ⟨rep, hmod, heq ▸ hod⟩

theorem finishDone_steps (trace : List Step) : (finishDone trace).steps = trace := by
  unfold finishDone
  split <;> rfl

theorem loop_steps_forall (cfg : OrchestratorConfig) (c : Collaborators)
    (history : List ChatMsg) (P : Step → Prop)
    (hexec : ∀ idx a desc inp, P (executeStep cfg c idx a desc inp)) :
    ∀ fuel trace r, loop cfg c history fuel trace = r →
      (∀ s ∈ trace, P s) → ∀ s ∈ r.steps, P s := by
  intro fuel
  induction fuel with
  | zero =>
    intro trace r hr ht
    simp only [loop] at hr
    subst hr
    exact ht
  | succ f ih =>
    intro trace r hr ht
    simp only [loop] at hr
    split at hr
    · subst hr
      exact ht
    · subst hr
      rw [finishDone_steps]
      exact ht
    · split at hr
      · subst hr
        exact ht
      · split at hr
        · subst hr
          intro s hs
          rcases List.mem_append.mp hs with hs | hs
          · exact ht s hs
          · rcases List.mem_singleton.mp hs with rfl
            exact hexec _ _ _ _
        · refine ih _ _ hr ?_
          intro s hs
          rcases List.mem_append.mp hs with hs | hs
          · exact ht s hs
          · rcases List.mem_singleton.mp hs with rfl
            exact hexec _ _ _ _

theorem loop_steps_length_le (cfg : OrchestratorConfig) (c : Collaborators)
    (history : List ChatMsg) :
    ∀ fuel trace r, loop cfg c history fuel trace = r →
      r.steps.length ≤ trace.length + fuel := by
  intro fuel
  induction fuel with
  | zero =>
    intro trace r hr
    simp only [loop] at hr
    subst hr
    simp
  | succ f ih =>
    intro trace r hr
    simp only [loop] at hr
    split at hr
    · subst hr
      simp
    · subst hr
      rw [finishDone_steps]
      omega
    · split at hr
      · subst hr
        simp
      · split at hr
        · subst hr
          simp only [List.length_append, List.length_singleton]
          omega
        · have := ih _ _ hr
          simp only [List.length_append, List.length_singleton] at this
          omega

/-- The C4 property of a run result: `completed` exactly when the last Step
is a successful `respond`, and `failed` when it is not. -/
def DoneOk (r : RunResult) : Prop :=
  (r.status = SessionStatus.completed ↔ lastIsSuccessfulRespond r.steps = true)
  ∧ (lastIsSuccessfulRespond r.steps = false → r.status = SessionStatus.failed)

theorem finishDone_doneOk (trace : List Step) : DoneOk (finishDone trace) := by
  unfold DoneOk finishDone
  by_cases hl : lastIsSuccessfulRespond trace = true
  · simp [hl]
  · simp [hl]

theorem loop_doneSignalled (cfg : OrchestratorConfig) (c : Collaborators)
    (history : List ChatMsg) :
    ∀ fuel trace r, loop cfg c history fuel trace = r →
      r.doneSignalled = true → DoneOk r := by
  intro fuel
  induction fuel with
  | zero =>
    intro trace r hr h
    simp only [loop] at hr
    subst hr
    simp at h
  | succ f ih =>
    intro trace r hr h
    simp only [loop] at hr
    split at hr
    · subst hr
      simp at h
    · subst hr
      exact finishDone_doneOk trace
    · split at hr
      · subst hr
        simp at h
      · split at hr
        · subst hr
          simp at h
        · exact ih _ _ hr h

/-- The spec's default configuration: step ceiling 10 (section 4.5), retry
ceiling 2 additional attempts (section 4.4). -/
def defaultConfig : OrchestratorConfig := ⟨10, 2⟩

/-- The adversarial Planner of the section 8 property test: always proposes a
fresh `plan` step; every handler call succeeds and the guardrail allows. -/
def adversarialCollab : Collaborators :=
  ⟨fun _ _ => some (Plan.next ActionType.plan "decide next action" "p"),
   fun _ _ _ => Except.ok "out",
   fun _ _ => true,
   fun _ _ => true,
   fun _ => GuardrailVerdict.allow⟩

/-- The message history of spec section 8, Scenario A. -/
def demoHistory : List ChatMsg := [⟨"user", "What is 2+2?"⟩]

/-- Scenario B collaborators: a single `retrieve` step whose handler times
out on attempts 0 and 1 and succeeds on attempt 2, then Done. -/
def retryCollab : Collaborators :=
  ⟨fun _ trace => if trace.length = 0 then
      some (Plan.next ActionType.retrieve "look up" "q")
    else some Plan.done,
   fun _ _ attempt => if attempt < 2 then Except.error ErrorKind.collaborator_timeout
     else Except.ok "passages",
   fun _ _ => true,
   fun _ _ => true,
   fun _ => GuardrailVerdict.allow⟩

/-- Collaborators proposing a single `act` step accepted by the guardrail,
then Done. -/
def actCollab : Collaborators :=
  ⟨fun _ trace => if trace.length = 0 then
      some (Plan.next ActionType.act "send" "tool")
    else some Plan.done,
   fun _ _ _ => Except.ok "result",
   fun _ _ => true,
   fun _ _ => true,
   fun _ => GuardrailVerdict.allow⟩

/-- Collaborators whose Planner signals Done immediately, before any
`respond` Step. -/
def doneCollab : Collaborators :=
  ⟨fun _ _ => some Plan.done,
   fun _ _ _ => Except.ok "out",
   fun _ _ => true,
   fun _ _ => true,
   fun _ => GuardrailVerdict.allow⟩

end Orchestrator

/-- C1: for every Session the Orchestration Loop terminates with a terminal
status in completed/halted/failed after at most the configured step ceiling
many Steps, for every possible Planner behavior; with ceiling 10 an
adversarial Planner that keeps proposing steps yields a Session halted with
halt_reason "step_ceiling" after exactly 10 Steps. -/
theorem claim_C1 :
    (∀ (cfg : Orchestrator.OrchestratorConfig) (c : Orchestrator.Collaborators)
        (history : List ChatMsg),
      ((Orchestrator.run cfg c history).status = Orchestrator.SessionStatus.completed
        ∨ (Orchestrator.run cfg c history).status = Orchestrator.SessionStatus.halted
        ∨ (Orchestrator.run cfg c history).status = Orchestrator.SessionStatus.failed)
      ∧ (Orchestrator.run cfg c history).steps.length ≤ cfg.stepCeiling)
    ∧ (Orchestrator.run Orchestrator.defaultConfig Orchestrator.adversarialCollab
        Orchestrator.demoHistory).status = Orchestrator.SessionStatus.halted
    ∧ (Orchestrator.run Orchestrator.defaultConfig Orchestrator.adversarialCollab
        Orchestrator.demoHistory).halt_reason = some "step_ceiling"
    ∧ (Orchestrator.run Orchestrator.defaultConfig Orchestrator.adversarialCollab
        Orchestrator.demoHistory).steps.length = 10 := by
  refine ⟨?_, ?_, ?_, ?_⟩
  · intro cfg c history
    constructor
    · cases h : (Orchestrator.run cfg c history).status with
      | completed => exact Or.inl rfl
      | halted => exact Or.inr (Or.inl rfl)
      | failed => exact Or.inr (Or.inr rfl)
    · simpa using
        Orchestrator.loop_steps_length_le cfg c history cfg.stepCeiling [] _ rfl
  · rfl
  · rfl
  · decide

/-- C2: no Step's attempt_count ever exceeds the configured retry ceiling:
neither in the returned trace nor at any point during execution (the Step
Executor itself never produces a larger count). -/
theorem claim_C2 :
    (∀ (cfg : Orchestrator.OrchestratorConfig) (c : Orchestrator.Collaborators)
        (history : List ChatMsg) (s : Orchestrator.Step),
      s ∈ (Orchestrator.run cfg c history).steps → s.attempt_count ≤ cfg.retryCeiling)
    ∧ (∀ (cfg : Orchestrator.OrchestratorConfig) (c : Orchestrator.Collaborators)
        (idx : Nat) (a : Orchestrator.ActionType) (desc inp : String),
      (Orchestrator.executeStep cfg c idx a desc inp).attempt_count ≤ cfg.retryCeiling) := by
  constructor
  · intro cfg c history s hs
    refine Orchestrator.loop_steps_forall cfg c history
      (fun st => st.attempt_count ≤ cfg.retryCeiling)
      (fun idx a desc inp => Orchestrator.executeStep_attempt_le cfg c idx a desc inp)
      cfg.stepCeiling [] _ rfl ?_ s hs
    intro x hx
    exact absurd hx (List.not_mem_nil x)
  · intro cfg c idx a desc inp
    exact Orchestrator.executeStep_attempt_le cfg c idx a desc inp

/-- Witness for C2: in the Scenario B run (handler times out twice then
succeeds, retry ceiling 2) the completed retrieve Step has attempt_count 2,
within the ceiling. -/
theorem claim_C2_witness :
    (⟨0, Orchestrator.ActionType.retrieve, Orchestrator.StepStatus.completed, "look up", "q",
      some "passages", 2, none⟩ : Orchestrator.Step).attempt_count ≤
      Orchestrator.defaultConfig.retryCeiling :=
  claim_C2.1 Orchestrator.defaultConfig Orchestrator.retryCollab Orchestrator.demoHistory _
    (by decide)

/-- C3: a Step with action_type act or respond is marked completed only if
the Guardrail Gate accepted its output beforehand: its stored output_data is
a handler output the guardrail allowed, or the replacement from a modify
verdict. -/
theorem claim_C3 :
    ∀ (cfg : Orchestrator.OrchestratorConfig) (c : Orchestrator.Collaborators)
      (history : List ChatMsg) (s : Orchestrator.Step),
      s ∈ (Orchestrator.run cfg c history).steps →
      (s.action_type = Orchestrator.ActionType.act
        ∨ s.action_type = Orchestrator.ActionType.respond) →
      s.status = Orchestrator.StepStatus.completed →
      Orchestrator.acceptedByGuardrail c s := by
  intro cfg c history s hs ha hc
  refine Orchestrator.loop_steps_forall cfg c history
    (fun st => (st.action_type = Orchestrator.ActionType.act
        ∨ st.action_type = Orchestrator.ActionType.respond) →
      st.status = Orchestrator.StepStatus.completed → Orchestrator.acceptedByGuardrail c st)
    ?_ cfg.stepCeiling [] _ rfl ?_ s hs ha hc
  · intro idx a desc inp ha' hc'
    exact Orchestrator.executeStep_accepted cfg c idx a desc inp ha' hc'
  · intro x hx
    exact absurd hx (List.not_mem_nil x)

/-- Witness for C3: the completed act Step of the actCollab run was accepted
by the guardrail (verdict allow on its handler output). -/
theorem claim_C3_witness :
    Orchestrator.acceptedByGuardrail Orchestrator.actCollab
      ⟨0, Orchestrator.ActionType.act, Orchestrator.StepStatus.completed, "send", "tool",
       some "result", 0, none⟩ :=
  claim_C3 Orchestrator.defaultConfig Orchestrator.actCollab Orchestrator.demoHistory _
    (by decide) (Or.inl rfl) rfl

/-- C4: whenever the Planner signals Done, the Session completes exactly when
the last executed Step was a successful respond, and Done without a preceding
successful respond yields status failed. -/
theorem claim_C4 :
    ∀ (cfg : Orchestrator.OrchestratorConfig) (c : Orchestrator.Collaborators)
      (history : List ChatMsg),
      (Orchestrator.run cfg c history).doneSignalled = true →
      ((Orchestrator.run cfg c history).status = Orchestrator.SessionStatus.completed ↔
        Orchestrator.lastIsSuccessfulRespond (Orchestrator.run cfg c history).steps = true)
      ∧ (Orchestrator.lastIsSuccessfulRespond (Orchestrator.run cfg c history).steps = false →
        (Orchestrator.run cfg c history).status = Orchestrator.SessionStatus.failed) := by
  intro cfg c history h
  exact Orchestrator.loop_doneSignalled cfg c history cfg.stepCeiling [] _ rfl h

/-- Witness for C4: a Planner that signals Done immediately (no respond Step)
yields a failed Session. -/
theorem claim_C4_witness :
    (Orchestrator.run Orchestrator.defaultConfig Orchestrator.doneCollab
      Orchestrator.demoHistory).status = Orchestrator.SessionStatus.failed :=
  (claim_C4 Orchestrator.defaultConfig Orchestrator.doneCollab Orchestrator.demoHistory rfl).2 rfl

namespace ChatWidget

theorem sendMessage_guard (s : WidgetState) (now : Nat) (o : FetchOutcome)
    (hg : jsTrim s.inputMessage = "" ∨ s.isLoading = true) :
    sendMessage s now o = (s, none) := by
  unfold sendMessage sendMessageStart
  rw [if_pos hg]

theorem sendMessage_go (s : WidgetState) (now : Nat) (o : FetchOutcome)
    (hg : ¬(jsTrim s.inputMessage = "" ∨ s.isLoading = true)) :
    sendMessage s now o =
      (⟨(s.messages ++ [userMessageOf s.inputMessage now]) ++ [replyMessage now o], "", false⟩,
       some ⟨(s.messages ++ [userMessageOf s.inputMessage now]).map toBodyMsg⟩) := by
  unfold sendMessage sendMessageStart sendMessageFinish
  rw [if_neg hg]

theorem sendMessage_some_inv (s : WidgetState) (now : Nat) (o : FetchOutcome)
    (s' : WidgetState) (body : RequestBody)
    (h : sendMessage s now o = (s', some body)) :
    ¬(jsTrim s.inputMessage = "" ∨ s.isLoading = true)
    ∧ s' = ⟨(s.messages ++ [userMessageOf s.inputMessage now]) ++ [replyMessage now o], "", false⟩
    ∧ body = ⟨(s.messages ++ [userMessageOf s.inputMessage now]).map toBodyMsg⟩ := by
  by_cases hg : jsTrim s.inputMessage = "" ∨ s.isLoading = true
  · rw [sendMessage_guard s now o hg] at h
    exact absurd h (by simp)
  · rw [sendMessage_go s now o hg] at h
    simp only [Prod.mk.injEq, Option.some.injEq] at h
    exact ⟨hg, h.1.symm, h.2.symm⟩

theorem jsTrim_empty : jsTrim "" = "" := rfl

end ChatWidget

namespace ChatWidget

/-- Whether a fetch outcome is one of the two failure paths of `sendMessage`
(`!response.ok` or a rejected fetch). -/
def isFailureOutcome : FetchOutcome → Bool
  | FetchOutcome.success _ => false
  | FetchOutcome.httpNotOk => true
  | FetchOutcome.networkFailure _ => true

/-- A widget state ready to send: the initial greeting plus the typed input
"hi". -/
def readyState : WidgetState := ⟨initialState.messages, "hi", false⟩

/-- A sample parsed `/chat` response with two steps and terminal status
`halted`. -/
def demoResponse : ChatResponse :=
  ⟨"All done", some [⟨"plan", "completed", "decide", none⟩,
    ⟨"respond", "completed", "answer", some "4"⟩], some 7, some "halted"⟩

end ChatWidget

/-- C5: every send posts a body that is exactly the displayed conversation
including the just-entered user message, in order, projected to role/content
pairs; the list is non-empty and all roles stay in the user/assistant/system
enum (the widget only ever stores user and assistant roles, starting from the
assistant greeting). -/
theorem claim_C5 :
    ChatWidget.StateRolesOk ChatWidget.initialState
    ∧ (∀ (s : ChatWidget.WidgetState) (now : Nat) (o : ChatWidget.FetchOutcome),
        ChatWidget.StateRolesOk s → ChatWidget.StateRolesOk (ChatWidget.sendMessage s now o).1)
    ∧ (∀ (s : ChatWidget.WidgetState) (now : Nat) (o : ChatWidget.FetchOutcome)
        (s' : ChatWidget.WidgetState) (body : ChatWidget.RequestBody),
        ChatWidget.sendMessage s now o = (s', some body) →
        body.messages =
          (s.messages ++ [ChatWidget.userMessageOf s.inputMessage now]).map ChatWidget.toBodyMsg
        ∧ body.messages ≠ []
        ∧ (ChatWidget.StateRolesOk s → ∀ bm ∈ body.messages, ChatWidget.RoleOk bm.role)) := by
  refine ⟨by decide, ?_, ?_⟩
  · intro s now o h
    by_cases hg : ChatWidget.jsTrim s.inputMessage = "" ∨ s.isLoading = true
    · rw [ChatWidget.sendMessage_guard s now o hg]
      exact h
    · rw [ChatWidget.sendMessage_go s now o hg]
      intro m hm
      simp only [List.mem_append, List.mem_singleton] at hm
      rcases hm with (hm | rfl) | rfl
      · exact h m hm
      · exact Or.inl rfl
      · cases o <;> exact Or.inr (Or.inl rfl)
  · intro s now o s' body h
    obtain ⟨hg, hs', hbody⟩ := ChatWidget.sendMessage_some_inv s now o s' body h
    subst hbody
    refine ⟨rfl, by simp, ?_⟩
    intro hroles bm hbm
    simp only [List.mem_map] at hbm
    obtain ⟨m, hm, rfl⟩ := hbm
    rcases List.mem_append.mp hm with hm | hm
    · exact hroles m hm
    · rcases List.mem_singleton.mp hm with rfl
      exact Or.inl rfl

/-- Witness for C5: sending "hi" from the initial state posts the greeting
followed by the user message, a non-empty body whose roles are all in the
enum. -/
theorem claim_C5_witness :
    (ChatWidget.RequestBody.mk
        ((ChatWidget.readyState.messages ++ [ChatWidget.userMessageOf "hi" 5]).map
          ChatWidget.toBodyMsg)).messages ≠ []
    ∧ ∀ bm ∈ (ChatWidget.RequestBody.mk
        ((ChatWidget.readyState.messages ++ [ChatWidget.userMessageOf "hi" 5]).map
          ChatWidget.toBodyMsg)).messages, ChatWidget.RoleOk bm.role :=
  have h := claim_C5.2.2 ChatWidget.readyState 5 ChatWidget.FetchOutcome.httpNotOk
    ⟨(ChatWidget.readyState.messages ++ [ChatWidget.userMessageOf "hi" 5]) ++
      [ChatWidget.replyMessage 5 ChatWidget.FetchOutcome.httpNotOk], "", false⟩
    ⟨(ChatWidget.readyState.messages ++ [ChatWidget.userMessageOf "hi" 5]).map
      ChatWidget.toBodyMsg⟩ (by decide)
  ⟨h.2.1, h.2.2 (by decide)⟩

/-- C6: a successful /chat response is rendered as an assistant message whose
steps are exactly the body's steps array, in order, each row showing the
per-action-type icon, the action_type label, the status badge, the
description, and the output_data details when present. -/
theorem claim_C6 :
    (∀ (s : ChatWidget.WidgetState) (now : Nat) (data : ChatWidget.ChatResponse)
        (s' : ChatWidget.WidgetState) (body : ChatWidget.RequestBody),
        ChatWidget.sendMessage s now (ChatWidget.FetchOutcome.success data) = (s', some body) →
        s'.messages.getLast? =
          some (ChatWidget.replyMessage now (ChatWidget.FetchOutcome.success data))
        ∧ (ChatWidget.replyMessage now (ChatWidget.FetchOutcome.success data)).steps =
          data.steps.getD [])
    ∧ (∀ m : ChatWidget.Message, m.steps ≠ [] →
        ChatWidget.stepPanel true m = m.steps.map ChatWidget.renderStep)
    ∧ (∀ st : ChatWidget.RStep,
        ChatWidget.renderStep st =
          ⟨ChatWidget.getStepIcon st.action_type, st.action_type,
           ChatWidget.getStepColor st.status, st.status, st.description, st.output_data⟩)
    ∧ (ChatWidget.getStepIcon "plan" = ChatWidget.StepIcon.settings
       ∧ ChatWidget.getStepIcon "retrieve" = ChatWidget.StepIcon.search
       ∧ ChatWidget.getStepIcon "act" = ChatWidget.StepIcon.bot
       ∧ ChatWidget.getStepIcon "verify" = ChatWidget.StepIcon.fileText
       ∧ ChatWidget.getStepIcon "respond" = ChatWidget.StepIcon.send) := by
  refine ⟨?_, ?_, ?_, rfl, rfl, rfl, rfl, rfl⟩
  · intro s now data s' body h
    obtain ⟨hg, hs', hbody⟩ := ChatWidget.sendMessage_some_inv s now _ s' body h
    subst hs'
    exact ⟨List.getLast?_concat _, rfl⟩
  · intro m hm
    unfold ChatWidget.stepPanel
    rw [if_pos ⟨rfl, List.length_pos.mpr hm⟩]
  · intro st
    rfl

/-- Witness for C6: the demo response's assistant message is the last message
after a successful send. -/
theorem claim_C6_witness :
    (⟨(ChatWidget.readyState.messages ++ [ChatWidget.userMessageOf "hi" 5]) ++
        [ChatWidget.replyMessage 5 (ChatWidget.FetchOutcome.success ChatWidget.demoResponse)],
      "", false⟩ : ChatWidget.WidgetState).messages.getLast? =
      some (ChatWidget.replyMessage 5 (ChatWidget.FetchOutcome.success ChatWidget.demoResponse)) :=
  (claim_C6.1 ChatWidget.readyState 5 ChatWidget.demoResponse _
    ⟨(ChatWidget.readyState.messages ++ [ChatWidget.userMessageOf "hi" 5]).map
      ChatWidget.toBodyMsg⟩ (by decide)).1

/-- C7: an HTTP 200 response is displayed as a normal (non-error) assistant
message carrying the body's response text, steps, tokens_used and status —
whatever the body's terminal status — and the error bubble appears exactly
for the two failure outcomes (non-ok HTTP status or rejected fetch). -/
theorem claim_C7 :
    (∀ (s : ChatWidget.WidgetState) (now : Nat) (data : ChatWidget.ChatResponse)
        (s' : ChatWidget.WidgetState) (body : ChatWidget.RequestBody),
        ChatWidget.sendMessage s now (ChatWidget.FetchOutcome.success data) = (s', some body) →
        s'.messages.getLast? =
          some (ChatWidget.replyMessage now (ChatWidget.FetchOutcome.success data))
        ∧ (ChatWidget.replyMessage now (ChatWidget.FetchOutcome.success data)).isError = false
        ∧ (ChatWidget.replyMessage now (ChatWidget.FetchOutcome.success data)).content =
            data.response
        ∧ (ChatWidget.replyMessage now (ChatWidget.FetchOutcome.success data)).steps =
            data.steps.getD []
        ∧ (ChatWidget.replyMessage now (ChatWidget.FetchOutcome.success data)).tokensUsed =
            data.tokens_used
        ∧ (ChatWidget.replyMessage now (ChatWidget.FetchOutcome.success data)).status =
            data.status)
    ∧ (∀ (now : Nat) (o : ChatWidget.FetchOutcome),
        (ChatWidget.replyMessage now o).isError = true ↔ ChatWidget.isFailureOutcome o = true) := by
  constructor
  · intro s now data s' body h
    obtain ⟨hg, hs', hbody⟩ := ChatWidget.sendMessage_some_inv s now _ s' body h
    subst hs'
    exact ⟨List.getLast?_concat _, rfl, rfl, rfl, rfl, rfl⟩
  · intro now o
    cases o <;> simp [ChatWidget.replyMessage, ChatWidget.isFailureOutcome]

/-- Witness for C7: the demo response (terminal status halted) is shown as a
non-error assistant message with its steps, token count and status. -/
theorem claim_C7_witness :
    (ChatWidget.replyMessage 5 (ChatWidget.FetchOutcome.success ChatWidget.demoResponse)).isError =
        false
    ∧ (ChatWidget.replyMessage 5
        (ChatWidget.FetchOutcome.success ChatWidget.demoResponse)).status = some "halted" :=
  have h := claim_C7.1 ChatWidget.readyState 5 ChatWidget.demoResponse
    ⟨(ChatWidget.readyState.messages ++ [ChatWidget.userMessageOf "hi" 5]) ++
      [ChatWidget.replyMessage 5 (ChatWidget.FetchOutcome.success ChatWidget.demoResponse)],
     "", false⟩
    ⟨(ChatWidget.readyState.messages ++ [ChatWidget.userMessageOf "hi" 5]).map
      ChatWidget.toBodyMsg⟩ (by decide)
  ⟨h.2.1, h.2.2.2.2.2.trans rfl⟩

/-- C8: with an empty (after trimming) input or a request already in flight,
sendMessage does nothing: no request is posted and the state is unchanged;
conversely any posted request was sent from a non-loading state with
non-empty trimmed input, and the user message it carries has non-empty
content. -/
theorem claim_C8 :
    (∀ (s : ChatWidget.WidgetState) (now : Nat) (o : ChatWidget.FetchOutcome),
        (ChatWidget.jsTrim s.inputMessage = "" ∨ s.isLoading = true) →
        ChatWidget.sendMessage s now o = (s, none))
    ∧ (∀ (s : ChatWidget.WidgetState) (now : Nat) (o : ChatWidget.FetchOutcome)
        (s' : ChatWidget.WidgetState) (body : ChatWidget.RequestBody),
        ChatWidget.sendMessage s now o = (s', some body) →
        s.isLoading = false ∧ ChatWidget.jsTrim s.inputMessage ≠ "" ∧ s.inputMessage ≠ ""
        ∧ body.messages.getLast? = some ⟨"user", s.inputMessage⟩) := by
  constructor
  · exact fun s now o hg => ChatWidget.sendMessage_guard s now o hg
  · intro s now o s' body h
    obtain ⟨hg, hs', hbody⟩ := ChatWidget.sendMessage_some_inv s now o s' body h
    push_neg at hg
    refine ⟨?_, hg.1, ?_, ?_⟩
    · cases hb : s.isLoading
      · rfl
      · exact absurd hb hg.2
    · intro he
      exact hg.1 (by rw [he]; rfl)
    · subst hbody
      have hmap : (s.messages ++ [ChatWidget.userMessageOf s.inputMessage now]).map
            ChatWidget.toBodyMsg =
          s.messages.map ChatWidget.toBodyMsg ++
            [ChatWidget.toBodyMsg (ChatWidget.userMessageOf s.inputMessage now)] := by
        simp
      rw [hmap, List.getLast?_concat]
      rfl

/-- Witness for C8: with a request in flight (isLoading true) sendMessage
leaves the state untouched and posts nothing. -/
theorem claim_C8_witness :
    ChatWidget.sendMessage ⟨ChatWidget.initialState.messages, "hello", true⟩ 3
      ChatWidget.FetchOutcome.httpNotOk =
    (⟨ChatWidget.initialState.messages, "hello", true⟩, none) :=
  claim_C8.1 ⟨ChatWidget.initialState.messages, "hello", true⟩ 3
    ChatWidget.FetchOutcome.httpNotOk (Or.inr rfl)

/-- C9: on a failed fetch (non-ok HTTP status or rejection) the widget
appends exactly one assistant error message — isError set, empty steps,
content prefixed with the error banner — right after the retained user
message, and isLoading is reset to false after every completed send. -/
theorem claim_C9 :
    (∀ (s : ChatWidget.WidgetState) (now : Nat)
        (s' : ChatWidget.WidgetState) (body : ChatWidget.RequestBody),
        ChatWidget.sendMessage s now ChatWidget.FetchOutcome.httpNotOk = (s', some body) →
        s'.messages = s.messages ++
          [ChatWidget.userMessageOf s.inputMessage now,
           ChatWidget.replyMessage now ChatWidget.FetchOutcome.httpNotOk]
        ∧ (ChatWidget.replyMessage now ChatWidget.FetchOutcome.httpNotOk).isError = true
        ∧ (ChatWidget.replyMessage now ChatWidget.FetchOutcome.httpNotOk).steps = []
        ∧ (ChatWidget.replyMessage now ChatWidget.FetchOutcome.httpNotOk).content =
            ChatWidget.errorContent "Failed to get response"
        ∧ s'.isLoading = false)
    ∧ (∀ (s : ChatWidget.WidgetState) (now : Nat) (msg : String)
        (s' : ChatWidget.WidgetState) (body : ChatWidget.RequestBody),
        ChatWidget.sendMessage s now (ChatWidget.FetchOutcome.networkFailure msg) =
          (s', some body) →
        s'.messages = s.messages ++
          [ChatWidget.userMessageOf s.inputMessage now,
           ChatWidget.replyMessage now (ChatWidget.FetchOutcome.networkFailure msg)]
        ∧ (ChatWidget.replyMessage now (ChatWidget.FetchOutcome.networkFailure msg)).isError = true
        ∧ (ChatWidget.replyMessage now (ChatWidget.FetchOutcome.networkFailure msg)).steps = []
        ∧ (∃ rest, (ChatWidget.replyMessage now
            (ChatWidget.FetchOutcome.networkFailure msg)).content =
            "Sorry, I encountered an error: " ++ rest)
        ∧ s'.isLoading = false)
    ∧ (∀ (s : ChatWidget.WidgetState) (now : Nat) (o : ChatWidget.FetchOutcome)
        (s' : ChatWidget.WidgetState) (body : ChatWidget.RequestBody),
        ChatWidget.sendMessage s now o = (s', some body) → s'.isLoading = false) := by
  refine ⟨?_, ?_, ?_⟩
  · intro s now s' body h
    obtain ⟨hg, hs', hbody⟩ := ChatWidget.sendMessage_some_inv s now _ s' body h
    subst hs'
    refine ⟨?_, rfl, rfl, rfl, rfl⟩
    rw [List.append_assoc]
    rfl
  · intro s now msg s' body h
    obtain ⟨hg, hs', hbody⟩ := ChatWidget.sendMessage_some_inv s now _ s' body h
    subst hs'
    refine ⟨?_, rfl, rfl, ⟨msg, rfl⟩, rfl⟩
    rw [List.append_assoc]
    rfl
  · intro s now o s' body h
    obtain ⟨hg, hs', hbody⟩ := ChatWidget.sendMessage_some_inv s now o s' body h
    subst hs'
    rfl

/-- Witness for C9: a failed fetch from the ready state yields the user
message followed by the single error bubble. -/
theorem claim_C9_witness :
    (⟨(ChatWidget.readyState.messages ++ [ChatWidget.userMessageOf "hi" 5]) ++
        [ChatWidget.replyMessage 5 ChatWidget.FetchOutcome.httpNotOk],
      "", false⟩ : ChatWidget.WidgetState).messages =
      ChatWidget.readyState.messages ++
        [ChatWidget.userMessageOf "hi" 5,
         ChatWidget.replyMessage 5 ChatWidget.FetchOutcome.httpNotOk] :=
  (claim_C9.1 ChatWidget.readyState 5 _
    ⟨(ChatWidget.readyState.messages ++ [ChatWidget.userMessageOf "hi" 5]).map
      ChatWidget.toBodyMsg⟩ (by decide)).1

/-- C10: every stored message has a steps list (a response without steps is
stored with an empty list); the step toggle is rendered exactly for messages
with non-empty steps and the details panel exactly when additionally toggled
open; and the icon/color lookups are total, falling back to the Bot icon and
the gray badge on unknown action types and statuses. -/
theorem claim_C10 :
    (∀ (now : Nat) (data : ChatWidget.ChatResponse),
        (ChatWidget.replyMessage now (ChatWidget.FetchOutcome.success data)).steps =
          data.steps.getD [])
    ∧ (∀ (now : Nat) (data : ChatWidget.ChatResponse), data.steps = none →
        (ChatWidget.replyMessage now (ChatWidget.FetchOutcome.success data)).steps = [])
    ∧ (∀ m : ChatWidget.Message, ChatWidget.stepsToggleShown m = true ↔ m.steps ≠ [])
    ∧ (∀ (shown : Bool) (m : ChatWidget.Message),
        ChatWidget.stepPanel shown m ≠ [] ↔ (shown = true ∧ m.steps ≠ []))
    ∧ (∀ a : String, a ∉ (["plan", "retrieve", "act", "verify", "respond"] : List String) →
        ChatWidget.getStepIcon a = ChatWidget.StepIcon.bot)
    ∧ (∀ st : String, st ∉ (["completed", "running", "failed"] : List String) →
        ChatWidget.getStepColor st = "bg-gray-100 text-gray-800 border-gray-200") := by
  refine ⟨?_, ?_, ?_, ?_, ?_, ?_⟩
  · intro now data
    rfl
  · intro now data h
    simp [ChatWidget.replyMessage, h]
  · intro m
    unfold ChatWidget.stepsToggleShown
    simp [List.length_pos]
  · intro shown m
    unfold ChatWidget.stepPanel
    by_cases hc : shown = true ∧ 0 < m.steps.length
    · rw [if_pos hc]
      constructor
      · intro _
        exact ⟨hc.1, List.length_pos.mp hc.2⟩
      · intro _
        simpa using List.length_pos.mp hc.2
    · rw [if_neg hc]
      constructor
      · intro hne
        exact absurd rfl hne
      · rintro ⟨h1, h2⟩
        exact absurd ⟨h1, List.length_pos.mpr h2⟩ hc
  · intro a ha
    simp only [List.mem_cons, List.mem_singleton, not_or] at ha
    obtain ⟨h1, h2, h3, h4, h5⟩ := ha
    simp [ChatWidget.getStepIcon, h1, h2, h3, h4, h5]
  · intro st hst
    simp only [List.mem_cons, List.mem_singleton, not_or] at hst
    obtain ⟨h1, h2, h3⟩ := hst
    simp [ChatWidget.getStepColor, h1, h2, h3]

/-- Witness for C10: an unknown action type renders with the default Bot
icon and an unknown status with the gray badge. -/
theorem claim_C10_witness :
    ChatWidget.getStepIcon "unknown" = ChatWidget.StepIcon.bot
    ∧ ChatWidget.getStepColor "pending" = "bg-gray-100 text-gray-800 border-gray-200" :=
  ⟨claim_C10.2.2.2.2.1 "unknown" (by decide),
   claim_C10.2.2.2.2.2 "pending" (by decide)⟩
